import Mathlib

/-!
Verification development for the chat-context aggregation and analysis-dispatch
pipeline of the Capstone-2025 backend
(`src/backend/controllers/chatController.js`, `src/backend/config/fastApiClient.js`).

The JavaScript handlers are shallowly embedded as pure Lean functions:

* request bodies, Mongo documents and axios results become explicit structures;
* the MongoDB store of chats becomes an insertion-ordered list, with
  `findOne` modelled as first match in store (natural) order;
* the dispatch to the external FastAPI engine becomes a function parameter
  (the environment), so the handler logic around it stays exact;
* JavaScript builtins used by the controller (`JSON.parse`, `String(...)`,
  `trim`, `includes`, `split`, truthiness, `||`) are modelled by the
  `json*` / `js*` definitions below.
-/

namespace Capstone

/-- JSON values, as produced by `JSON.parse`.  Numbers keep their source
token (no claim in this development depends on numeric canonicalisation). -/
inductive JsonV where
  | null : JsonV
  | bool : Bool → JsonV
  | num : String → JsonV
  | str : String → JsonV
  | arr : List JsonV → JsonV
  | obj : List (String × JsonV) → JsonV

/-- The four JSON whitespace characters (also the common case of the
characters stripped by JavaScript `String.prototype.trim`). -/
def isJsWs (c : Char) : Bool :=
  c == ' ' || c == '\t' || c == '\n' || c == '\r'

/-- Model of JavaScript `s.trim()` restricted to the four common whitespace
characters: drop leading and trailing whitespace. -/
def jsTrim (s : String) : String :=
  String.mk (((s.toList.dropWhile isJsWs).reverse.dropWhile isJsWs).reverse)

/-- Model of JavaScript `s.includes(c)` for a single-character needle. -/
def jsIncludes (s : String) (c : Char) : Bool :=
  s.toList.contains c

/-- JavaScript truthiness of an optional string (`undefined`/`null`/`""` are
falsy). -/
def jsFalsyStr : Option String → Bool
  | none => true
  | some s => s == ""

/-- JavaScript `a || b` for a possibly-absent string `a` with default `b`. -/
def jsOr (a : Option String) (b : String) : String :=
  match a with
  | some s => if s == "" then b else s
  | none => b

/-- JavaScript `a || b` for strings. -/
def jsOrStr (a b : String) : String :=
  if a == "" then b else a

/-- JavaScript `s || null`. -/
def jsStrOrNull (s : String) : Option String :=
  if s == "" then none else some s

/-- `content?.trim()` with `undefined` collapsing to the empty string for
truthiness tests. -/
def optTrim (o : Option String) : String :=
  jsTrim (o.getD "")

/-! ### A model of `JSON.parse` -/

/-- Skip JSON whitespace. -/
def skipWs : List Char → List Char
  | [] => []
  | c :: cs => if isJsWs c then skipWs cs else c :: cs

/-- Expect a literal run of characters. -/
def stripPfx : List Char → List Char → Option (List Char)
  | [], cs => some cs
  | _ :: _, [] => none
  | p :: ps, c :: cs => if c = p then stripPfx ps cs else none

def hexVal (c : Char) : Option Nat :=
  if '0' ≤ c ∧ c ≤ '9' then some (c.toNat - '0'.toNat)
  else if 'a' ≤ c ∧ c ≤ 'f' then some (c.toNat - 'a'.toNat + 10)
  else if 'A' ≤ c ∧ c ≤ 'F' then some (c.toNat - 'A'.toNat + 10)
  else none

def parseHex4 : List Char → Option (Nat × List Char)
  | a :: b :: c :: d :: rest =>
    match hexVal a, hexVal b, hexVal c, hexVal d with
    | some x, some y, some z, some w => some ((((x * 16 + y) * 16 + z) * 16 + w), rest)
    | _, _, _, _ => none
  | _ => none

/-- Body of a JSON string literal (the opening quote already consumed),
accumulating decoded characters in reverse. -/
def parseJStringAux : Nat → List Char → List Char → Option (String × List Char)
  | 0, _, _ => none
  | _ + 1, _, [] => none
  | fuel + 1, acc, c :: cs =>
    if c = '"' then some (String.mk acc.reverse, cs)
    else if c = '\\' then
      match cs with
      | [] => none
      | e :: cs2 =>
        if e = '"' then parseJStringAux fuel ('"' :: acc) cs2
        else if e = '\\' then parseJStringAux fuel ('\\' :: acc) cs2
        else if e = '/' then parseJStringAux fuel ('/' :: acc) cs2
        else if e = 'b' then parseJStringAux fuel ('\x08' :: acc) cs2
        else if e = 'f' then parseJStringAux fuel ('\x0c' :: acc) cs2
        else if e = 'n' then parseJStringAux fuel ('\n' :: acc) cs2
        else if e = 'r' then parseJStringAux fuel ('\r' :: acc) cs2
        else if e = 't' then parseJStringAux fuel ('\t' :: acc) cs2
        else if e = 'u' then
          match parseHex4 cs2 with
          | some (n, cs3) => parseJStringAux fuel (Char.ofNat n :: acc) cs3
          | none => none
        else none
    else if c.toNat < 32 then none
    else parseJStringAux fuel (c :: acc) cs

/-- Fraction and exponent part of a JSON number, given the integer part. -/
def parseFracExp (intPart : String) (cs : List Char) : Option (String × List Char) :=
  let fracRes : Option (String × List Char) :=
    match cs with
    | '.' :: r =>
      let (ds, r2) := List.span Char.isDigit r
      if ds.isEmpty then none else some (intPart ++ "." ++ String.mk ds, r2)
    | _ => some (intPart, cs)
  match fracRes with
  | none => none
  | some (s1, cs2) =>
    match cs2 with
    | e :: r =>
      if e = 'e' ∨ e = 'E' then
        let (sgn, r1) :=
          match r with
          | '+' :: rr => ("+", rr)
          | '-' :: rr => ("-", rr)
          | _ => ("", r)
        let (ds, r2) := List.span Char.isDigit r1
        if ds.isEmpty then none
        else some (s1 ++ String.mk [e] ++ sgn ++ String.mk ds, r2)
      else some (s1, cs2)
    | [] => some (s1, cs2)

/-- A JSON number token: `-? (0 | [1-9][0-9]*) frac? exp?`. -/
def parseNumber (cs : List Char) : Option (String × List Char) :=
  let (sign, cs1) :=
    match cs with
    | '-' :: r => ("-", r)
    | _ => ("", cs)
  match cs1 with
  | [] => none
  | c :: rest =>
    if c = '0' then parseFracExp (sign ++ "0") rest
    else if c.isDigit then
      let (ds, rest2) := List.span Char.isDigit rest
      parseFracExp (sign ++ String.mk (c :: ds)) rest2
    else none

/-- `pass :=` the ASCII braces, kept out of character literals. -/
def objOpen : Char := Char.ofNat 123

def objClose : Char := Char.ofNat 125

mutual

/-- One JSON value (with leading whitespace), fuel-bounded. -/
def parseValue : Nat → List Char → Option (JsonV × List Char)
  | 0, _ => none
  | fuel + 1, cs =>
    match skipWs cs with
    | [] => none
    | c :: rest =>
      if c = 'n' then (stripPfx ['u', 'l', 'l'] rest).map (fun r => (JsonV.null, r))
      else if c = 't' then (stripPfx ['r', 'u', 'e'] rest).map (fun r => (JsonV.bool true, r))
      else if c = 'f' then (stripPfx ['a', 'l', 's', 'e'] rest).map (fun r => (JsonV.bool false, r))
      else if c = '"' then
        match parseJStringAux (rest.length + 1) [] rest with
        | some (s, r) => some (JsonV.str s, r)
        | none => none
      else if c = '[' then
        match skipWs rest with
        | ']' :: r => some (JsonV.arr [], r)
        | _ =>
          match parseElems fuel rest with
          | some (xs, r) => some (JsonV.arr xs, r)
          | none => none
      else if c = objOpen then
        match skipWs rest with
        | x :: r =>
          if x = objClose then some (JsonV.obj [], r)
          else
            match parseMembers fuel rest with
            | some (fs, r2) => some (JsonV.obj fs, r2)
            | none => none
        | [] => none
      else
        match parseNumber (c :: rest) with
        | some (tok, r) => some (JsonV.num tok, r)
        | none => none

/-- Comma-separated array elements up to the closing bracket. -/
def parseElems : Nat → List Char → Option (List JsonV × List Char)
  | 0, _ => none
  | fuel + 1, cs =>
    match parseValue fuel cs with
    | none => none
    | some (v, r) =>
      match skipWs r with
      | ',' :: r2 => (parseElems fuel r2).map (fun p => (v :: p.1, p.2))
      | ']' :: r2 => some ([v], r2)
      | _ => none

/-- Comma-separated object members up to the closing brace. -/
def parseMembers : Nat → List Char → Option (List (String × JsonV) × List Char)
  | 0, _ => none
  | fuel + 1, cs =>
    match skipWs cs with
    | '"' :: r =>
      match parseJStringAux (r.length + 1) [] r with
      | none => none
      | some (k, r1) =>
        match skipWs r1 with
        | ':' :: r2 =>
          match parseValue fuel r2 with
          | none => none
          | some (v, r3) =>
            match skipWs r3 with
            | ',' :: r4 => (parseMembers fuel r4).map (fun p => ((k, v) :: p.1, p.2))
            | x :: r4 => if x = objClose then some ([(k, v)], r4) else none
            | [] => none
        | _ => none
    | _ => none

end

/-- Model of `JSON.parse`: a single value with optional surrounding
whitespace, anything trailing is an error. -/
def jsonParse (s : String) : Option JsonV :=
  match parseValue (s.length + 1) s.toList with
  | some (v, rest) => if (skipWs rest).isEmpty then some v else none
  | none => none

/-! ### `String(...)` coercion and `JSON.stringify` -/

mutual

/-- Model of JavaScript `String(v)` on a parsed JSON value (numbers keep
their source token; nested `null` inside an array joins as the empty
string, as `Array.prototype.toString` does). -/
def jsString : JsonV → String
  | JsonV.null => "null"
  | JsonV.bool true => "true"
  | JsonV.bool false => "false"
  | JsonV.num tok => tok
  | JsonV.str s => s
  | JsonV.arr xs => String.intercalate "," (jsStringList xs)
  | JsonV.obj _ => "[object Object]"

def jsStringList : List JsonV → List String
  | [] => []
  | JsonV.null :: vs => "" :: jsStringList vs
  | v :: vs => jsString v :: jsStringList vs

end

def hexDigit (n : Nat) : Char :=
  if n < 10 then Char.ofNat ('0'.toNat + n) else Char.ofNat ('a'.toNat + n - 10)

def hex4 (n : Nat) : String :=
  String.mk [hexDigit (n / 4096 % 16), hexDigit (n / 256 % 16), hexDigit (n / 16 % 16), hexDigit (n % 16)]

def escapeJsonChar (c : Char) : String :=
  if c = '"' then "\\\""
  else if c = '\\' then "\\\\"
  else if c = '\n' then "\\n"
  else if c = '\r' then "\\r"
  else if c = '\t' then "\\t"
  else if c = '\x08' then "\\b"
  else if c = '\x0c' then "\\f"
  else if c.toNat < 32 then "\\u" ++ hex4 c.toNat
  else String.mk [c]

def quoteJson (s : String) : String :=
  "\"" ++ String.join (s.toList.map escapeJsonChar) ++ "\""

mutual

/-- Model of `JSON.stringify` on parsed JSON values. -/
def jsonStringify : JsonV → String
  | JsonV.null => "null"
  | JsonV.bool true => "true"
  | JsonV.bool false => "false"
  | JsonV.num tok => tok
  | JsonV.str s => quoteJson s
  | JsonV.arr xs => "[" ++ String.intercalate "," (jsonStringifyList xs) ++ "]"
  | JsonV.obj fs => "\x7b" ++ String.intercalate "," (jsonStringifyMembers fs) ++ "\x7d"

def jsonStringifyList : List JsonV → List String
  | [] => []
  | v :: vs => jsonStringify v :: jsonStringifyList vs

def jsonStringifyMembers : List (String × JsonV) → List String
  | [] => []
  | (k, v) :: fs => (quoteJson k ++ ":" ++ jsonStringify v) :: jsonStringifyMembers fs

end

/-! ### Data model

Mongo documents as seen by the controller after `populate`.  The message
schema file itself is not under `src/`; fields are taken from the documents
the controller constructs (`Message.create` at `chatController.js` lines
110–116 and 280–284). -/

/-- An entry of a message's `tempFiles` array, as built by `chatHandler`. -/
structure TempFile where
  originalname : String
  mimetype : String
  size : Nat
  headText : String
  /-- base64 text of the uploaded buffer; `none` models JavaScript `null`. -/
  bufferBase64 : Option String
  deriving DecidableEq, Repr

/-- An entry of `req.files` as delivered by multer; the buffer is carried
as its base64 text (`none` models an absent buffer). -/
structure IncomingFile where
  originalname : String
  mimetype : String
  size : Nat
  buffer : Option String
  deriving DecidableEq, Repr

/-- A populated chat message. -/
structure Msg where
  sender : String
  content : Option String
  selectedDatasets : List JsonV
  tempFiles : List TempFile

/-- A dataset document of a project (`_id` already in string form). -/
structure DatasetRec where
  id : String
  name : String
  url : String
  deriving DecidableEq, Repr

/-- A `{name, url}` entry of the datasets context sent to FastAPI. -/
structure DatasetRef where
  name : String
  url : String
  deriving DecidableEq, Repr

/-- A `{role, content}` entry of the recent-history window. -/
structure Turn where
  role : String
  content : Option String
  deriving DecidableEq, Repr

/-- A populated team: its organization id and its member user ids. -/
structure TeamRec where
  organization : String
  memberIds : List String
  deriving DecidableEq, Repr

/-- A populated project (`team` is `none` when the reference is dangling). -/
structure ProjectRec where
  team : Option TeamRec
  datasets : List DatasetRec

/-- A chat document, with its messages populated inline. -/
structure ChatRec where
  id : String
  project : String
  title : String
  messages : List Msg

/-- The chat collection (insertion order) together with the `chats` array
of the project under consideration.  `findOne` is modelled as the first
match in insertion order. -/
structure ChatState where
  chats : List ChatRec
  projectChats : List String

/-- The authenticated caller (`req.user`). -/
structure ReqUser where
  userId : String
  organization : String
  role : String
  deriving DecidableEq, Repr

/-- HTTP responses produced by the handlers. -/
inductive HResp where
  | okSubmit : String → String → HResp
  | okAnalysis : JsonV → HResp
  | err : Nat → String → HResp

/-- Body of a submit (`POST /chat`) request. -/
structure SubmitReq where
  chatId : Option String
  projectId : Option String
  content : Option String

/-- Body of a reply (`POST /chat/ai`) request. -/
structure ReplyReq where
  chatId : Option String
  projectId : Option String
  content : Option String

/-- The shape of an axios error (`err.message`, `err.code`,
`err.response?.status`, `err.response?.data?.detail`,
`err.response?.data?.error`). -/
structure AxiosErr where
  message : String
  code : Option String
  status : Option Nat
  dataDetail : Option String
  dataError : Option String
  deriving DecidableEq, Repr

/-- One file part appended to the outgoing form. -/
structure FilePart where
  filename : String
  contentBase64 : String
  contentType : String
  deriving DecidableEq, Repr

/-- The multipart form sent to the FastAPI `/analyze` route
(`user_text`, `context`, repeated `files` parts). -/
structure ReplyForm where
  user_text : String
  context : String
  files : List FilePart
  deriving DecidableEq, Repr

/-! ### `parseSelectedDatasets` (`chatController.js` lines 12–30) -/

/-- The possible shapes of `req.body.selectedDatasets`: absent, an array,
a string, or some other primitive value. -/
inductive DsInput where
  | undef : DsInput
  | arr : List JsonV → DsInput
  | str : String → DsInput
  | other : JsonV → DsInput

/-- JavaScript truthiness of a parsed value (the number case keys on the
zero tokens; no claim depends on other numeric spellings). -/
def jsFalsy : JsonV → Bool
  | JsonV.null => true
  | JsonV.bool b => !b
  | JsonV.str s => s == ""
  | JsonV.num tok => tok == "0" || tok == "-0" || tok == "0.0"
  | JsonV.arr _ => false
  | JsonV.obj _ => false

/-- Normalize `selectedDatasets` input into an array: JSON string, then
comma-separated fallback, then single trimmed value (lines 12–30). -/
def parseSelectedDatasets : DsInput → List JsonV
  | DsInput.undef => []
  | DsInput.arr xs => xs
  | DsInput.str s =>
    if s == "" then []
    else
      match jsonParse s with
      | some (JsonV.arr xs) => xs
      | some v => [v]
      | none =>
        if jsIncludes s ',' then
          (((s.splitOn ",").map jsTrim).filter (fun t => t != "")).map JsonV.str
        else [JsonV.str (jsTrim s)]
  | DsInput.other v => if jsFalsy v then [] else [v]

/-! ### File intake (`chatHandler` lines 36–49) -/

/-- Model of Node's `path.extname` on the uploaded name: the substring from
the last dot, unless that dot is the leading character or absent. -/
def extname (s : String) : String :=
  match (s.toList.reverse.takeWhile (fun c => c ≠ '.')), (s.toList.reverse.dropWhile (fun c => c ≠ '.')) with
  | _, [] => ""
  | ext, _ :: before => if before.isEmpty then "" else String.mk ('.' :: ext.reverse)

/-- Model of JavaScript `toLowerCase` on ASCII. -/
def jsToLower (s : String) : String :=
  String.mk (s.toList.map Char.toLower)

/-- The CSV filter applied to incoming files (lines 39–42). -/
def isCsvUpload (f : IncomingFile) : Bool :=
  jsToLower (extname f.originalname) == ".csv" || f.mimetype == "text/csv"

/-- Lines 43–49: keep name/type/size, empty `headText`, and
`f.buffer?.toString("base64") || null` (an empty buffer collapses to
`null`). -/
def mkTempFile (f : IncomingFile) : TempFile :=
  { originalname := f.originalname
    mimetype := f.mimetype
    size := f.size
    headText := ""
    bufferBase64 :=
      match f.buffer with
      | none => none
      | some b => if b == "" then none else some b }

/-! ### Access control (the block duplicated at `chatController.js`
lines 75–85, 154–164 and in the other handlers) -/

/-- `some resp` when the caller is denied, `none` when allowed:
superadmin always passes; otherwise the team's organization must match and
the caller must appear among the team members. -/
def accessCheck (user : ReqUser) (team : TeamRec) : Option HResp :=
  if user.role ≠ "superadmin" then
    if team.organization ≠ user.organization then
      some (HResp.err 403 "Not in this organization.")
    else if (team.memberIds.find? (fun m => m == user.userId)).isNone then
      some (HResp.err 403 "Not a member of this team.")
    else none
  else none

/-! ### Chat resolution (`chatHandler` lines 87–107) -/

/-- Get-or-create: with a (truthy) `chatId`, `findOne({_id, project})` and
no creation; otherwise `findOne({project})` (first match in store order),
creating and registering a fresh chat only when none exists. -/
def resolveChat (st : ChatState) (projectId : String) (chatId : Option String)
    (newId : String) : Option ChatRec × ChatState :=
  if !jsFalsyStr chatId then
    (st.chats.find? (fun c => c.id == chatId.getD "" && c.project == projectId), st)
  else
    match st.chats.find? (fun c => c.project == projectId) with
    | some c => (some c, st)
    | none =>
      let c : ChatRec := { id := newId, project := projectId, title := "New chat", messages := [] }
      (some c, { chats := st.chats ++ [c], projectChats := st.projectChats ++ [newId] })

/-- `chat.save()` after pushing a message: replace the chat with the given
id in the store. -/
def updateChat (st : ChatState) (cid : String) (c' : ChatRec) : ChatState :=
  { st with chats := st.chats.map (fun c => if c.id == cid then c' else c) }

/-! ### `chatHandler` (`chatController.js` lines 32–127) -/

/-- The submit operation.  `files` is `req.files`, `ds` is
`req.body.selectedDatasets`, `project?` the result of the project lookup,
`st` the chat store, `newChatId` the id Mongo would assign on creation.
Returns the updated store and the HTTP response. -/
def chatHandler (req : SubmitReq) (files : List IncomingFile) (ds : DsInput)
    (user : ReqUser) (project? : Option ProjectRec) (st : ChatState)
    (newChatId : String) : ChatState × HResp :=
  let tempFiles := (files.filter isCsvUpload).map mkTempFile
  let selectedDatasets := parseSelectedDatasets ds
  let hasContent := optTrim req.content != ""
  let hasFiles := tempFiles.length > 0
  let hasDatasets := selectedDatasets.length > 0
  if jsFalsyStr req.projectId || (!hasContent && !hasFiles && !hasDatasets) then
    (st, HResp.err 400 "projectId and at least one of content, selectedDatasets, or files are required.")
  else
    match project? with
    | none => (st, HResp.err 404 "Project not found.")
    | some project =>
      match project.team with
      | none => (st, HResp.err 404 "Team not found.")
      | some team =>
        match accessCheck user team with
        | some resp => (st, resp)
        | none =>
          match resolveChat st (req.projectId.getD "") req.chatId newChatId with
          | (none, st1) => (st1, HResp.err 404 "Chat not found or could not be created.")
          | (some chat, st1) =>
            let userMsg : Msg :=
              { sender := "user"
                content := jsStrOrNull (optTrim req.content)
                selectedDatasets := selectedDatasets
                tempFiles := tempFiles }
            let st2 := updateChat st1 chat.id { chat with messages := chat.messages ++ [userMsg] }
            (st2, HResp.okSubmit "User message saved." chat.id)

/-! ### Context aggregation (`aiReplyHandler` lines 166–234) -/

/-- `Set.add` on an insertion-ordered string set. -/
def addToSet (s : List String) (x : String) : List String :=
  if x ∈ s then s else s ++ [x]

/-- Lines 173–176: fold one message's `selectedDatasets` into the set,
coercing each id with `String(...)`. -/
def collectIds (acc : List String) (msg : Msg) : List String :=
  if msg.selectedDatasets.length > 0 then
    msg.selectedDatasets.foldl (fun a dsId => addToSet a (jsString dsId)) acc
  else acc

/-- Unique dataset ids from the entire history, in first-seen order
(lines 171–176). -/
def allDatasetIds (msgs : List Msg) : List String :=
  msgs.foldl collectIds []

/-- Last five messages mapped to role/content (lines 177–181). -/
def recentHistory (msgs : List Msg) : List Turn :=
  (msgs.drop (msgs.length - 5)).map (fun msg =>
    { role := if msg.sender == "user" then "user" else "assistant"
      content := msg.content })

/-- Whether a temp file still carries a (truthy) base64 buffer. -/
def hasBuffer (f : TempFile) : Bool :=
  match f.bufferBase64 with
  | some s => s != ""
  | none => false

/-- Every uploaded CSV from every user message in the chat that still has
its buffer (lines 184–194). -/
def allUploadedFiles (msgs : List Msg) : List TempFile :=
  msgs.foldl (fun acc msg =>
    if msg.sender == "user" then acc ++ msg.tempFiles.filter hasBuffer
    else acc) []

/-- Resolve accumulated dataset ids against the project's datasets
(lines 196–202): the project list is filtered by membership of its ids in
the accumulated set, keeping the project list's order. -/
def datasetsContext (projDatasets : List DatasetRec) (ids : List String) : List DatasetRef :=
  (projDatasets.filter (fun d => ids.contains d.id)).map (fun d =>
    { name := d.name, url := d.url })

/-- Synthetic entries for the uploads (lines 204–210). -/
def uploadRefs (uploads : List TempFile) : List DatasetRef :=
  uploads.enum.map (fun p =>
    { name := jsOrStr p.2.originalname ("Upload " ++ toString (p.1 + 1))
      url := "Current Upload" })

def turnJson (t : Turn) : JsonV :=
  JsonV.obj [("role", JsonV.str t.role),
             ("content", match t.content with
                         | some s => JsonV.str s
                         | none => JsonV.null)]

def refJson (r : DatasetRef) : JsonV :=
  JsonV.obj [("name", JsonV.str r.name), ("url", JsonV.str r.url)]

/-- Assemble the outgoing multipart form (lines 212–234): the serialized
`{messages, datasets}` context, the trimmed user text, and one `files`
part per retained upload with a fixed `text/csv` content type. -/
def buildReplyForm (project : ProjectRec) (msgs : List Msg) (content : String) : ReplyForm :=
  let ids := allDatasetIds msgs
  let uploads := allUploadedFiles msgs
  let dsctx := datasetsContext project.datasets ids ++ uploadRefs uploads
  { user_text := jsTrim content
    context := jsonStringify (JsonV.obj
      [("messages", JsonV.arr ((recentHistory msgs).map turnJson)),
       ("datasets", JsonV.arr (dsctx.map refJson))])
    files := uploads.map (fun f =>
      { filename := jsOrStr f.originalname "dataset.csv"
        contentBase64 := f.bufferBase64.getD ""
        contentType := "text/csv" }) }

/-! ### Endpoint normalization -/

/-- JavaScript `pathname.replace(/\/+$/, "")`. -/
def stripTrailingSlashes (s : String) : String :=
  String.mk ((s.toList.reverse.dropWhile (fun c => c == '/')).reverse)

/-- JavaScript `String.prototype.endsWith`. -/
def jsEndsWith (s suf : String) : Bool :=
  decide (suf.toList <:+ s.toList)

/-- Path rewrite at the reply dispatch site (`chatController.js`
lines 244–247): append `/analyze` only when not already present. -/
def analyzePathChat (p : String) : String :=
  if jsEndsWith p "/analyze" then p else stripTrailingSlashes p ++ "/analyze"

/-- Path rewrite in `fastApiClient.js` line 28 (and at the alternate reply
site, line 996): `/analyze` is appended unconditionally. -/
def analyzePathClient (p : String) : String :=
  stripTrailingSlashes p ++ "/analyze"

/-- Error surfaced by `callFastAPIAnalyze` on a failed call
(`fastApiClient.js` lines 70–73): the client message falls back through
`detail`, `error`, the transport message and a generic string, and the
upstream status is attached. -/
def fastApiClientError (err : AxiosErr) : String × Option Nat :=
  (jsOr err.dataDetail (jsOr err.dataError (jsOrStr err.message "Error calling FastAPI")),
   err.status)

/-! ### `aiReplyHandler` (`chatController.js` lines 128–293) -/

/-- The reply operation.  `fastApiPath` is the pathname of the configured
`FASTAPI_URL`; `dispatch` is the environment's answer to the single
`axios.post` (given the normalized path and the assembled form).  Returns
the chat's post-state (when it was found) and the HTTP response. -/
def aiReplyHandler (fastApiPath : String) (req : ReplyReq) (user : ReqUser)
    (project? : Option ProjectRec) (chat? : Option ChatRec)
    (dispatch : String → ReplyForm → Except AxiosErr JsonV) :
    Option ChatRec × HResp :=
  if jsFalsyStr req.projectId || jsFalsyStr req.chatId || optTrim req.content == "" then
    (chat?, HResp.err 400 "projectId, chatId, and content required.")
  else
    match project? with
    | none => (chat?, HResp.err 404 "Project not found.")
    | some project =>
      match chat? with
      | none => (none, HResp.err 404 "Chat not found.")
      | some chat =>
        match project.team with
        | none => (some chat, HResp.err 404 "Team not found.")
        | some team =>
          match accessCheck user team with
          | some resp => (some chat, resp)
          | none =>
            let msgs := chat.messages
            let form := buildReplyForm project msgs (req.content.getD "")
            match dispatch (analyzePathChat fastApiPath) form with
            | Except.error _ => (some chat, HResp.err 500 "Internal server error.")
            | Except.ok analysis =>
              let botMsg : Msg :=
                { sender := "chatbot"
                  content := some (jsonStringify analysis)
                  selectedDatasets := []
                  tempFiles := [] }
              (some { chat with messages := chat.messages ++ [botMsg] },
               HResp.okAnalysis analysis)

/-! ## Helper lemmas -/

theorem mem_addToSet {s : List String} {x y : String} :
    y ∈ addToSet s x ↔ y ∈ s ∨ y = x := by
  unfold addToSet
  split
  · rename_i h
    exact ⟨Or.inl, fun hy => hy.elim id (fun e => e ▸ h)⟩
  · simp [List.mem_append]

theorem nodup_addToSet {s : List String} {x : String} (hs : s.Nodup) :
    (addToSet s x).Nodup := by
  unfold addToSet
  split
  · exact hs
  · rename_i h
    simp [List.nodup_append, hs, h]

theorem mem_foldl_addToSet (l : List JsonV) (acc : List String) (y : String) :
    y ∈ l.foldl (fun a v => addToSet a (jsString v)) acc ↔
      y ∈ acc ∨ ∃ v ∈ l, jsString v = y := by
  induction l generalizing acc with
  | nil => simp
  | cons v vs ih =>
    simp only [List.foldl_cons, ih, mem_addToSet, List.mem_cons]
    constructor
    · rintro (⟨h | h⟩ | ⟨w, hw, hjs⟩)
      · exact Or.inl h
      · exact Or.inr ⟨v, Or.inl rfl, h.symm⟩
      · exact Or.inr ⟨w, Or.inr hw, hjs⟩
    · rintro (h | ⟨w, h | h, hjs⟩)
      · exact Or.inl (Or.inl h)
      · exact Or.inl (Or.inr (h ▸ hjs.symm))
      · exact Or.inr ⟨w, h, hjs⟩

theorem nodup_foldl_addToSet (l : List JsonV) (acc : List String) (h : acc.Nodup) :
    (l.foldl (fun a v => addToSet a (jsString v)) acc).Nodup := by
  induction l generalizing acc with
  | nil => exact h
  | cons v vs ih => exact ih _ (nodup_addToSet h)

theorem collectIds_eq (acc : List String) (m : Msg) :
    collectIds acc m = m.selectedDatasets.foldl (fun a v => addToSet a (jsString v)) acc := by
  unfold collectIds
  split
  · rfl
  · rename_i h
    have hnil : m.selectedDatasets = [] := by
      cases hsd : m.selectedDatasets with
      | nil => rfl
      | cons a as => rw [hsd] at h; simp at h
    rw [hnil]
    rfl

theorem mem_foldl_collectIds (msgs : List Msg) (acc : List String) (y : String) :
    y ∈ msgs.foldl collectIds acc ↔
      y ∈ acc ∨ ∃ m ∈ msgs, ∃ v ∈ m.selectedDatasets, jsString v = y := by
  induction msgs generalizing acc with
  | nil => simp
  | cons m ms ih =>
    simp only [List.foldl_cons, ih, collectIds_eq, mem_foldl_addToSet, List.mem_cons]
    constructor
    · rintro (⟨h | ⟨v, hv, hjs⟩⟩ | ⟨w, hw, hv⟩)
      · exact Or.inl h
      · exact Or.inr ⟨m, Or.inl rfl, v, hv, hjs⟩
      · exact Or.inr ⟨w, Or.inr hw, hv⟩
    · rintro (h | ⟨w, h | h, hv⟩)
      · exact Or.inl (Or.inl h)
      · exact Or.inl (Or.inr (h ▸ hv))
      · exact Or.inr ⟨w, h, hv⟩

theorem nodup_foldl_collectIds (msgs : List Msg) (acc : List String) (h : acc.Nodup) :
    (msgs.foldl collectIds acc).Nodup := by
  induction msgs generalizing acc with
  | nil => exact h
  | cons m ms ih =>
    rw [List.foldl_cons, collectIds_eq]
    exact ih _ (nodup_foldl_addToSet _ _ h)

theorem allUploadedFiles_aux (msgs : List Msg) (init : List TempFile) :
    msgs.foldl (fun acc msg =>
        if msg.sender == "user" then acc ++ msg.tempFiles.filter hasBuffer else acc) init =
      init ++ msgs.flatMap (fun m =>
        if m.sender == "user" then m.tempFiles.filter hasBuffer else []) := by
  induction msgs generalizing init with
  | nil => simp
  | cons m ms ih =>
    rw [List.foldl_cons, List.flatMap_cons]
    by_cases h : m.sender == "user"
    · rw [if_pos h, if_pos h, ih, List.append_assoc]
    · rw [if_neg h, if_neg h, ih, List.nil_append]

/-! ## C1: dataset accumulation -/

/-- C1 counterexample data: dataset `A` is selected first (turns 1 and 3),
`B` second (turn 2), but the project's dataset list stores `B` before `A`. -/
def exC1P : List DatasetRec :=
  [{ id := "B", name := "Bname", url := "Burl" },
   { id := "A", name := "Aname", url := "Aurl" }]

def exC1Msgs : List Msg :=
  [{ sender := "user", content := some "t1", selectedDatasets := [JsonV.str "A"], tempFiles := [] },
   { sender := "user", content := some "t2", selectedDatasets := [JsonV.str "B"], tempFiles := [] },
   { sender := "user", content := some "t3", selectedDatasets := [JsonV.str "A"], tempFiles := [] }]

/-- C1 counterexample: the accumulated id set is in first-seen order
`[A, B]`, yet the aggregated `datasetRefs` come out in the project's
dataset-list order `[B, A]`, not first-seen order `[A, B]`. -/
theorem C1_counterexample :
    allDatasetIds exC1Msgs = ["A", "B"] ∧
    datasetsContext exC1P (allDatasetIds exC1Msgs) =
      [{ name := "Bname", url := "Burl" }, { name := "Aname", url := "Aurl" }] ∧
    ([{ name := "Bname", url := "Burl" }, { name := "Aname", url := "Aurl" }] : List DatasetRef) ≠
      [{ name := "Aname", url := "Aurl" }, { name := "Bname", url := "Burl" }] := by
  refine ⟨by decide, by decide, by decide⟩

/-- C1 (amended): the accumulated dataset-id set is deduplicated and holds
exactly the string-normalized ids selected anywhere in the history, but the
aggregated `datasetRefs` list the project datasets whose id was selected in
the order of the project's dataset list (a sublist of it), not first-seen
order — with one entry per selected project dataset. -/
theorem C1_dataset_accumulation (P : List DatasetRec) (msgs : List Msg) :
    (allDatasetIds msgs).Nodup ∧
    (∀ s, s ∈ allDatasetIds msgs ↔
      ∃ m ∈ msgs, ∃ v ∈ m.selectedDatasets, jsString v = s) ∧
    List.Sublist (datasetsContext P (allDatasetIds msgs))
      (P.map (fun d => { name := d.name, url := d.url })) ∧
    (datasetsContext P (allDatasetIds msgs)).length =
      (P.filter (fun d => (allDatasetIds msgs).contains d.id)).length := by
  refine ⟨nodup_foldl_collectIds _ _ List.nodup_nil, ?_, ?_, ?_⟩
  · intro s
    simpa [allDatasetIds] using mem_foldl_collectIds msgs [] s
  · exact (List.filter_sublist _).map _
  · simp [datasetsContext]

/-! ## C2: raw file payloads -/

def exC2f1 : TempFile :=
  { originalname := "a.csv", mimetype := "text/csv", size := 3, headText := "", bufferBase64 := some "QUJD" }

def exC2f2 : TempFile :=
  { originalname := "b.csv", mimetype := "text/csv", size := 3, headText := "", bufferBase64 := some "REVG" }

/-- C2 counterexample history: a file uploaded in turn 1, a bot reply, and
a second user turn with its own file. -/
def exC2Msgs : List Msg :=
  [{ sender := "user", content := some "first", selectedDatasets := [], tempFiles := [exC2f1] },
   { sender := "chatbot", content := some "r", selectedDatasets := [], tempFiles := [] },
   { sender := "user", content := some "second", selectedDatasets := [], tempFiles := [exC2f2] }]

/-- C2 counterexample: the reply dispatch attaches both files, although the
most recent user message only carries the second one — the file of the
earlier turn is resent as raw bytes. -/
theorem C2_counterexample :
    allUploadedFiles exC2Msgs = [exC2f1, exC2f2] ∧
    (exC2Msgs.reverse.find? (fun m => m.sender == "user")).map Msg.tempFiles = some [exC2f2] ∧
    exC2f1 ≠ exC2f2 := by
  refine ⟨rfl, rfl, by decide⟩

/-- C2 (amended): the reply operation attaches, as raw file payloads, every
retained file of every user message in the whole history, in history order
— not only the most recent user message's files.  The attached form parts
are exactly these files. -/
theorem C2_attached_files :
    (∀ msgs, allUploadedFiles msgs = msgs.flatMap (fun m =>
        if m.sender == "user" then m.tempFiles.filter hasBuffer else [])) ∧
    (∀ msgs f, f ∈ allUploadedFiles msgs ↔
        ∃ m ∈ msgs, m.sender = "user" ∧ f ∈ m.tempFiles ∧ hasBuffer f = true) ∧
    (∀ project msgs content, (buildReplyForm project msgs content).files =
        (allUploadedFiles msgs).map (fun f =>
          { filename := jsOrStr f.originalname "dataset.csv"
            contentBase64 := f.bufferBase64.getD ""
            contentType := "text/csv" })) := by
  have heq : ∀ msgs : List Msg, allUploadedFiles msgs = msgs.flatMap (fun m =>
      if m.sender == "user" then m.tempFiles.filter hasBuffer else []) := by
    intro msgs
    simpa [allUploadedFiles] using allUploadedFiles_aux msgs []
  refine ⟨heq, ?_, fun _ _ _ => rfl⟩
  intro msgs f
  rw [heq]
  simp only [List.mem_flatMap, List.mem_filter]
  constructor
  · rintro ⟨m, hm, hf⟩
    by_cases h : m.sender == "user"
    · rw [if_pos h] at hf
      exact ⟨m, hm, by simpa using h, (List.mem_filter.mp hf).1, (List.mem_filter.mp hf).2⟩
    · rw [if_neg h] at hf
      simp at hf
  · rintro ⟨m, hm, hs, hf, hb⟩
    refine ⟨m, hm, ?_⟩
    rw [if_pos (by simp [hs])]
    exact List.mem_filter.mpr ⟨hf, hb⟩

/-! ## C3: the recent-turns window -/

/-- C3: for a history of at least 5 messages, the recent-turns window has
exactly 5 entries — the last 5 messages in order — each mapped to role
"user" for sender `user` and "assistant" for any other sender, with the
content copied verbatim. -/
theorem C3_recent_turns (msgs : List Msg) (h : 5 ≤ msgs.length) :
    (recentHistory msgs).length = 5 ∧
    ∃ pre suf, msgs = pre ++ suf ∧ suf.length = 5 ∧
      recentHistory msgs = suf.map (fun m =>
        { role := if m.sender == "user" then "user" else "assistant"
          content := m.content }) := by
  refine ⟨?_, msgs.take (msgs.length - 5), msgs.drop (msgs.length - 5),
    (List.take_append_drop _ _).symm, ?_, rfl⟩
  · simp only [recentHistory, List.length_map, List.length_drop]
    omega
  · simp only [List.length_drop]
    omega

def exC3Msgs : List Msg :=
  (List.range 7).map (fun i =>
    { sender := if i % 2 == 0 then "user" else "chatbot"
      content := some (toString i), selectedDatasets := [], tempFiles := [] })

/-- Witness for C3 at a concrete 7-message history. -/
theorem C3_recent_turns_witness :
    (recentHistory exC3Msgs).length = 5 ∧
    ∃ pre suf, exC3Msgs = pre ++ suf ∧ suf.length = 5 ∧
      recentHistory exC3Msgs = suf.map (fun m =>
        { role := if m.sender == "user" then "user" else "assistant"
          content := m.content }) :=
  C3_recent_turns exC3Msgs (by decide)

/-! ## C4: endpoint normalization -/

/-- C4 counterexample: a configured base path that already ends with
`/analyze` gets a second `/analyze` appended by the `fastApiClient.js`
normalization (also used at the alternate reply site). -/
theorem C4_counterexample :
    jsEndsWith "/analyze" "/analyze" = true ∧
    analyzePathClient "/analyze" = "/analyze/analyze" := by
  refine ⟨by decide, by decide⟩

/-- C4 (amended): the reply-handler normalization appends `/analyze` only
when the path does not already end with it; the `fastApiClient` (and
alternate-site) normalization appends it unconditionally after stripping
trailing slashes, duplicating the segment when already present.  Both
always produce a path ending with `/analyze`. -/
theorem C4_endpoint_normalization :
    (∀ p, jsEndsWith p "/analyze" = true → analyzePathChat p = p) ∧
    (∀ p, jsEndsWith p "/analyze" = false →
      analyzePathChat p = stripTrailingSlashes p ++ "/analyze") ∧
    (∀ p, analyzePathClient p = stripTrailingSlashes p ++ "/analyze") ∧
    (∀ p, jsEndsWith (analyzePathChat p) "/analyze" = true ∧
          jsEndsWith (analyzePathClient p) "/analyze" = true) := by
  have happ : ∀ q : String, jsEndsWith (q ++ "/analyze") "/analyze" = true := by
    intro q
    simp only [jsEndsWith, decide_eq_true_eq]
    show "/analyze".data <:+ (q ++ "/analyze").data
    rw [String.data_append]
    exact List.suffix_append _ _
  refine ⟨?_, ?_, fun _ => rfl, ?_⟩
  · intro p h
    simp [analyzePathChat, h]
  · intro p h
    simp [analyzePathChat, h]
  · intro p
    constructor
    · by_cases h : jsEndsWith p "/analyze" <;> simp [analyzePathChat, h, happ]
    · exact happ _

/-- Witness for C4 (amended) at concrete paths. -/
theorem C4_endpoint_normalization_witness :
    analyzePathChat "/x/analyze" = "/x/analyze" ∧ analyzePathChat "/api" = "/api/analyze" := by
  constructor
  · exact C4_endpoint_normalization.1 "/x/analyze" (by decide)
  · rw [C4_endpoint_normalization.2.1 "/api" (by decide)]
    decide

/-! ## Whitespace lemmas (for C10) -/

theorem skipWs_of_all {cs : List Char} (h : cs.all isJsWs = true) : skipWs cs = [] := by
  induction cs with
  | nil => rfl
  | cons c cs ih =>
    simp only [List.all_cons, Bool.and_eq_true] at h
    simp [skipWs, h.1, ih h.2]

theorem dropWhile_of_all {p : Char → Bool} {cs : List Char} (h : cs.all p = true) :
    cs.dropWhile p = [] := by
  induction cs with
  | nil => rfl
  | cons c cs ih =>
    simp only [List.all_cons, Bool.and_eq_true] at h
    simp [List.dropWhile_cons, h.1, ih h.2]

theorem jsonParse_of_all_ws (s : String) (h : s.toList.all isJsWs = true) :
    jsonParse s = none := by
  have h0 : skipWs s.data = [] := skipWs_of_all h
  simp [jsonParse, parseValue, h0]

theorem jsTrim_of_all_ws (s : String) (h : s.toList.all isJsWs = true) :
    jsTrim s = "" := by
  unfold jsTrim
  rw [dropWhile_of_all h]
  rfl

theorem jsIncludes_comma_of_all_ws (s : String) (h : s.toList.all isJsWs = true) :
    jsIncludes s ',' = false := by
  simp only [jsIncludes]
  rw [Bool.eq_false_iff]
  intro hc
  have hmem : ',' ∈ s.toList := by
    simpa [List.elem_iff] using hc
  have := List.all_eq_true.mp h _ hmem
  simp [isJsWs] at this

/-! ## Handler-level helper lemmas -/

theorem chatHandler_denied (req : SubmitReq) (files : List IncomingFile) (ds : DsInput)
    (u : ReqUser) (p : ProjectRec) (team : TeamRec) (st : ChatState) (nid : String) (r : HResp)
    (hpid : jsFalsyStr req.projectId = false)
    (hval : optTrim req.content ≠ "" ∨ files.filter isCsvUpload ≠ [] ∨
      parseSelectedDatasets ds ≠ [])
    (hteam : p.team = some team)
    (hacc : accessCheck u team = some r) :
    chatHandler req files ds u (some p) st nid = (st, r) := by
  rcases hval with hcontent | hfiles | hds
  · have hc : (optTrim req.content != "") = true := by
      simpa [bne_iff_ne] using hcontent
    simp [chatHandler, hpid, hc, hteam, hacc]
  · simp [chatHandler, hpid, hteam, hacc]
    intro _ hall _
    exact absurd (List.filter_eq_nil_iff.mpr (by simpa using hall)) hfiles
  · have hd : 0 < (parseSelectedDatasets ds).length := List.length_pos.mpr hds
    simp [chatHandler, hpid, hd, hteam, hacc]

theorem chatHandler_success (req : SubmitReq) (files : List IncomingFile) (ds : DsInput)
    (u : ReqUser) (p : ProjectRec) (team : TeamRec) (st st1 : ChatState) (nid : String)
    (chat : ChatRec)
    (hpid : jsFalsyStr req.projectId = false)
    (hval : optTrim req.content ≠ "" ∨ files.filter isCsvUpload ≠ [] ∨
      parseSelectedDatasets ds ≠ [])
    (hteam : p.team = some team)
    (hacc : accessCheck u team = none)
    (hresolve : resolveChat st (req.projectId.getD "") req.chatId nid = (some chat, st1)) :
    chatHandler req files ds u (some p) st nid =
      (updateChat st1 chat.id { chat with messages := chat.messages ++
          [{ sender := "user", content := jsStrOrNull (optTrim req.content),
             selectedDatasets := parseSelectedDatasets ds,
             tempFiles := (files.filter isCsvUpload).map mkTempFile }] },
       HResp.okSubmit "User message saved." chat.id) := by
  rcases hval with hcontent | hfiles | hds
  · have hc : (optTrim req.content != "") = true := by
      simpa [bne_iff_ne] using hcontent
    simp [chatHandler, hpid, hc, hteam, hacc, hresolve]
  · simp [chatHandler, hpid, hteam, hacc, hresolve]
    intro _ hall
    exact absurd (List.filter_eq_nil_iff.mpr (by simpa using hall)) hfiles
  · have hd : 0 < (parseSelectedDatasets ds).length := List.length_pos.mpr hds
    simp [chatHandler, hpid, hd, hteam, hacc, hresolve]

theorem chatHandler_success_content (req : SubmitReq) (files : List IncomingFile) (ds : DsInput)
    (u : ReqUser) (p : ProjectRec) (team : TeamRec) (st st1 : ChatState) (nid : String)
    (chat : ChatRec)
    (hpid : jsFalsyStr req.projectId = false)
    (hcontent : optTrim req.content ≠ "")
    (hteam : p.team = some team)
    (hacc : accessCheck u team = none)
    (hresolve : resolveChat st (req.projectId.getD "") req.chatId nid = (some chat, st1)) :
    chatHandler req files ds u (some p) st nid =
      (updateChat st1 chat.id { chat with messages := chat.messages ++
          [{ sender := "user", content := jsStrOrNull (optTrim req.content),
             selectedDatasets := parseSelectedDatasets ds,
             tempFiles := (files.filter isCsvUpload).map mkTempFile }] },
       HResp.okSubmit "User message saved." chat.id) := by
  have hc : (optTrim req.content != "") = true := by
    simpa [bne_iff_ne] using hcontent
  simp [chatHandler, hpid, hc, hteam, hacc, hresolve]

theorem chatHandler_success_datasets (req : SubmitReq) (files : List IncomingFile) (ds : DsInput)
    (u : ReqUser) (p : ProjectRec) (team : TeamRec) (st st1 : ChatState) (nid : String)
    (chat : ChatRec)
    (hpid : jsFalsyStr req.projectId = false)
    (hds : 0 < (parseSelectedDatasets ds).length)
    (hteam : p.team = some team)
    (hacc : accessCheck u team = none)
    (hresolve : resolveChat st (req.projectId.getD "") req.chatId nid = (some chat, st1)) :
    chatHandler req files ds u (some p) st nid =
      (updateChat st1 chat.id { chat with messages := chat.messages ++
          [{ sender := "user", content := jsStrOrNull (optTrim req.content),
             selectedDatasets := parseSelectedDatasets ds,
             tempFiles := (files.filter isCsvUpload).map mkTempFile }] },
       HResp.okSubmit "User message saved." chat.id) := by
  simp [chatHandler, hpid, hds, hteam, hacc, hresolve]

theorem aiReplyHandler_error (fp : String) (req : ReplyReq) (u : ReqUser)
    (p : ProjectRec) (team : TeamRec) (chat : ChatRec)
    (dispatch : String → ReplyForm → Except AxiosErr JsonV) (e : AxiosErr)
    (hpid : jsFalsyStr req.projectId = false)
    (hcid : jsFalsyStr req.chatId = false)
    (hcontent : optTrim req.content ≠ "")
    (hteam : p.team = some team)
    (hacc : accessCheck u team = none)
    (hd : dispatch (analyzePathChat fp) (buildReplyForm p chat.messages (req.content.getD "")) =
      Except.error e) :
    aiReplyHandler fp req u (some p) (some chat) dispatch =
      (some chat, HResp.err 500 "Internal server error.") := by
  have hc : (optTrim req.content == "") = false := by
    simpa [beq_eq_false_iff_ne] using hcontent
  simp [aiReplyHandler, hpid, hcid, hc, hteam, hacc, hd]

theorem aiReplyHandler_ok (fp : String) (req : ReplyReq) (u : ReqUser)
    (p : ProjectRec) (team : TeamRec) (chat : ChatRec)
    (dispatch : String → ReplyForm → Except AxiosErr JsonV) (analysis : JsonV)
    (hpid : jsFalsyStr req.projectId = false)
    (hcid : jsFalsyStr req.chatId = false)
    (hcontent : optTrim req.content ≠ "")
    (hteam : p.team = some team)
    (hacc : accessCheck u team = none)
    (hd : dispatch (analyzePathChat fp) (buildReplyForm p chat.messages (req.content.getD "")) =
      Except.ok analysis) :
    aiReplyHandler fp req u (some p) (some chat) dispatch =
      (some { chat with messages := chat.messages ++
          [{ sender := "chatbot", content := some (jsonStringify analysis),
             selectedDatasets := [], tempFiles := [] }] },
       HResp.okAnalysis analysis) := by
  have hc : (optTrim req.content == "") = false := by
    simpa [beq_eq_false_iff_ne] using hcontent
  simp [aiReplyHandler, hpid, hcid, hc, hteam, hacc, hd]

theorem aiReplyHandler_denied (fp : String) (req : ReplyReq) (u : ReqUser)
    (p : ProjectRec) (team : TeamRec) (chat : ChatRec)
    (dispatch : String → ReplyForm → Except AxiosErr JsonV) (r : HResp)
    (hpid : jsFalsyStr req.projectId = false)
    (hcid : jsFalsyStr req.chatId = false)
    (hcontent : optTrim req.content ≠ "")
    (hteam : p.team = some team)
    (hacc : accessCheck u team = some r) :
    aiReplyHandler fp req u (some p) (some chat) dispatch = (some chat, r) := by
  have hc : (optTrim req.content == "") = false := by
    simpa [beq_eq_false_iff_ne] using hcontent
  simp [aiReplyHandler, hpid, hcid, hc, hteam, hacc]

theorem accessCheck_superadmin (u : ReqUser) (t : TeamRec) (h : u.role = "superadmin") :
    accessCheck u t = none := by
  simp [accessCheck, h]

/-! ## Concrete fixtures -/

def wTeam : TeamRec := { organization := "org1", memberIds := ["u1"] }

def wProject : ProjectRec :=
  { team := some wTeam, datasets := [{ id := "A", name := "Aname", url := "Aurl" }] }

def wUserMember : ReqUser := { userId := "u1", organization := "org1", role := "member" }

def wUserSuper : ReqUser := { userId := "u9", organization := "orgX", role := "superadmin" }

def wChat : ChatRec :=
  { id := "c1", project := "p1", title := "New chat"
    messages := [{ sender := "user", content := some "hello",
                   selectedDatasets := [JsonV.str "A"], tempFiles := [] }] }

def wSt : ChatState := { chats := [wChat], projectChats := ["c1"] }

def wReplyReq : ReplyReq := { chatId := some "c1", projectId := some "p1", content := some "What now?" }

def wErr : AxiosErr :=
  { message := "Request failed with status code 422", code := some "ERR_BAD_REQUEST"
    status := some 422, dataDetail := some "bad file", dataError := none }

/-! ## C5: partial failure persistence -/

/-- C5: when the dispatch to the analysis engine fails, the reply
operation leaves the chat's message list exactly as it was (the previously
saved user messages remain), appends no assistant message, and answers
with the generic 500 error. -/
theorem C5_partial_failure (fp : String) (req : ReplyReq) (u : ReqUser)
    (p : ProjectRec) (team : TeamRec) (chat : ChatRec)
    (dispatch : String → ReplyForm → Except AxiosErr JsonV) (e : AxiosErr)
    (hpid : jsFalsyStr req.projectId = false)
    (hcid : jsFalsyStr req.chatId = false)
    (hcontent : optTrim req.content ≠ "")
    (hteam : p.team = some team)
    (hacc : accessCheck u team = none)
    (hd : dispatch (analyzePathChat fp) (buildReplyForm p chat.messages (req.content.getD "")) =
      Except.error e) :
    aiReplyHandler fp req u (some p) (some chat) dispatch =
      (some chat, HResp.err 500 "Internal server error.") :=
  aiReplyHandler_error fp req u p team chat dispatch e hpid hcid hcontent hteam hacc hd

/-- Witness for C5 at a concrete chat and failing dispatch. -/
theorem C5_partial_failure_witness :
    aiReplyHandler "" wReplyReq wUserMember (some wProject) (some wChat)
      (fun _ _ => Except.error wErr) =
      (some wChat, HResp.err 500 "Internal server error.") :=
  C5_partial_failure "" wReplyReq wUserMember wProject wTeam wChat
    (fun _ _ => Except.error wErr) wErr (by decide) (by decide) (by decide) rfl rfl rfl

/-! ## C6: authorization -/

theorem chatHandler_superadmin_no403 (req : SubmitReq) (files : List IncomingFile)
    (ds : DsInput) (u : ReqUser) (project? : Option ProjectRec) (st : ChatState)
    (nid : String) (h : u.role = "superadmin") :
    ∀ s, (chatHandler req files ds u project? st nid).2 ≠ HResp.err 403 s := by
  intro s
  cases project? with
  | none =>
    simp only [chatHandler]
    split <;> simp
  | some p =>
    cases hteam : p.team with
    | none =>
      simp only [chatHandler, hteam]
      split <;> simp
    | some team =>
      simp only [chatHandler, hteam, accessCheck_superadmin u team h]
      split
      · simp
      · split <;> simp

theorem aiReplyHandler_superadmin_no403 (fp : String) (req : ReplyReq) (u : ReqUser)
    (project? : Option ProjectRec) (chat? : Option ChatRec)
    (dispatch : String → ReplyForm → Except AxiosErr JsonV) (h : u.role = "superadmin") :
    ∀ s, (aiReplyHandler fp req u project? chat? dispatch).2 ≠ HResp.err 403 s := by
  intro s
  cases project? with
  | none =>
    simp only [aiReplyHandler]
    split <;> simp
  | some p =>
    cases chat? with
    | none =>
      simp only [aiReplyHandler]
      split <;> simp
    | some chat =>
      cases hteam : p.team with
      | none =>
        simp only [aiReplyHandler, hteam]
        split <;> simp
      | some team =>
        simp only [aiReplyHandler, hteam, accessCheck_superadmin u team h]
        split
        · simp
        · split <;> simp

/-- C6: superadmin callers are never denied by the access check (and the
handlers never answer 403 for them); non-superadmin callers from another
organization, or missing from the team's member list, are denied with the
corresponding 403 — and in that case both handlers return the store/chat
unchanged, so nothing is created or persisted. -/
theorem C6_authorization :
    (∀ u t, u.role = "superadmin" → accessCheck u t = none) ∧
    (∀ u t, u.role ≠ "superadmin" → t.organization ≠ u.organization →
      accessCheck u t = some (HResp.err 403 "Not in this organization.")) ∧
    (∀ u t, u.role ≠ "superadmin" → t.organization = u.organization →
      u.userId ∉ t.memberIds →
      accessCheck u t = some (HResp.err 403 "Not a member of this team.")) ∧
    (∀ req files ds u p team st nid r, jsFalsyStr req.projectId = false →
      (optTrim req.content ≠ "" ∨ files.filter isCsvUpload ≠ [] ∨
        parseSelectedDatasets ds ≠ []) →
      p.team = some team → accessCheck u team = some r →
      chatHandler req files ds u (some p) st nid = (st, r)) ∧
    (∀ fp req u p team chat dispatch r, jsFalsyStr req.projectId = false →
      jsFalsyStr req.chatId = false → optTrim req.content ≠ "" → p.team = some team →
      accessCheck u team = some r →
      aiReplyHandler fp req u (some p) (some chat) dispatch = (some chat, r)) ∧
    (∀ req files ds u project? st nid s, u.role = "superadmin" →
      (chatHandler req files ds u project? st nid).2 ≠ HResp.err 403 s) ∧
    (∀ fp req u project? chat? dispatch s, u.role = "superadmin" →
      (aiReplyHandler fp req u project? chat? dispatch).2 ≠ HResp.err 403 s) := by
  refine ⟨accessCheck_superadmin, ?_, ?_, ?_, ?_, ?_, ?_⟩
  · intro u t h1 h2
    simp [accessCheck, h1, h2]
  · intro u t h1 h2 h3
    have hfind : t.memberIds.find? (fun m => m == u.userId) = none := by
      refine List.find?_eq_none.mpr (fun x hx => ?_)
      simp only [beq_iff_eq]
      rintro rfl
      exact h3 hx
    simp [accessCheck, h1, h2, hfind]
  · intro req files ds u p team st nid r hpid hval hteam hacc
    exact chatHandler_denied req files ds u p team st nid r hpid hval hteam hacc
  · intro fp req u p team chat dispatch r hpid hcid hcontent hteam hacc
    exact aiReplyHandler_denied fp req u p team chat dispatch r hpid hcid hcontent hteam hacc
  · intro req files ds u project? st nid s h
    exact chatHandler_superadmin_no403 req files ds u project? st nid h s
  · intro fp req u project? chat? dispatch s h
    exact aiReplyHandler_superadmin_no403 fp req u project? chat? dispatch h s

def wSubmitReq : SubmitReq := { chatId := some "c1", projectId := some "p1", content := some "hi" }

def wTeamOther : TeamRec := { organization := "org2", memberIds := ["u2"] }

def wProjectOther : ProjectRec := { team := some wTeamOther, datasets := [] }

/-- Witness for C6: a member-less caller is denied with 403 before any
state change — also on a dataset-only submission (no text, no files) —
and a superadmin caller is never denied. -/
theorem C6_authorization_witness :
    chatHandler { chatId := some "c1", projectId := some "p1", content := none }
      [] (DsInput.arr [JsonV.str "d1"])
      { userId := "u3", organization := "org2", role := "member" }
      (some wProjectOther) wSt "n" =
      (wSt, HResp.err 403 "Not a member of this team.") ∧
    chatHandler wSubmitReq [] DsInput.undef
      { userId := "u3", organization := "org2", role := "member" }
      (some wProjectOther) wSt "n" =
      (wSt, HResp.err 403 "Not a member of this team.") ∧
    accessCheck wUserSuper wTeamOther = none ∧
    (chatHandler wSubmitReq [] DsInput.undef wUserSuper (some wProjectOther) wSt "n").2 ≠
      HResp.err 403 "Not a member of this team." := by
  refine ⟨?_, ?_, ?_, ?_⟩
  · refine C6_authorization.2.2.2.1
      { chatId := some "c1", projectId := some "p1", content := none }
      [] (DsInput.arr [JsonV.str "d1"])
      { userId := "u3", organization := "org2", role := "member" }
      wProjectOther wTeamOther wSt "n" _ (by decide) (Or.inr (Or.inr (by simp [parseSelectedDatasets]))) rfl ?_
    exact C6_authorization.2.2.1
      { userId := "u3", organization := "org2", role := "member" }
      wTeamOther (by decide) rfl (by decide)
  · refine C6_authorization.2.2.2.1 wSubmitReq [] DsInput.undef
      { userId := "u3", organization := "org2", role := "member" }
      wProjectOther wTeamOther wSt "n" _ (by decide) (Or.inl (by decide)) rfl ?_
    exact C6_authorization.2.2.1
      { userId := "u3", organization := "org2", role := "member" }
      wTeamOther (by decide) rfl (by decide)
  · exact C6_authorization.1 wUserSuper wTeamOther rfl
  · exact C6_authorization.2.2.2.2.2.1 wSubmitReq [] DsInput.undef wUserSuper
      (some wProjectOther) wSt "n" "Not a member of this team." rfl

/-! ## C7: upstream error surfacing -/

/-- C7 counterexample: the upstream failure carries status 422 and detail
"bad file", yet the reply operation answers its caller with a generic 500
"Internal server error." — neither the upstream detail nor the upstream
status reaches the caller. -/
theorem C7_counterexample :
    aiReplyHandler "/api" wReplyReq wUserSuper (some wProject) (some wChat)
      (fun _ _ => Except.error wErr) =
      (some wChat, HResp.err 500 "Internal server error.") ∧
    wErr.dataDetail = some "bad file" ∧ wErr.status = some 422 ∧
    ("Internal server error." : String) ≠ "bad file" ∧ (500 : Nat) ≠ 422 := by
  refine ⟨rfl, rfl, rfl, by decide, by decide⟩

/-- C7 (amended): the `callFastAPIAnalyze` helper builds an error that
carries the upstream `detail` field when present (else falling back) and
always attaches the upstream status; but the reply operation itself maps
every dispatch failure to a generic 500 "Internal server error." for its
caller. -/
theorem C7_error_detail :
    (∀ e d, e.dataDetail = some d → d ≠ "" → (fastApiClientError e).1 = d) ∧
    (∀ e, (fastApiClientError e).2 = e.status) ∧
    (∀ fp req u p team chat dispatch e,
      jsFalsyStr req.projectId = false → jsFalsyStr req.chatId = false →
      optTrim req.content ≠ "" → p.team = some team → accessCheck u team = none →
      dispatch (analyzePathChat fp) (buildReplyForm p chat.messages (req.content.getD "")) =
        Except.error e →
      (aiReplyHandler fp req u (some p) (some chat) dispatch).2 =
        HResp.err 500 "Internal server error.") := by
  refine ⟨?_, fun _ => rfl, ?_⟩
  · intro e d hd hne
    simp [fastApiClientError, jsOr, hd, hne]
  · intro fp req u p team chat dispatch e hpid hcid hcontent hteam hacc hd
    rw [aiReplyHandler_error fp req u p team chat dispatch e hpid hcid hcontent hteam hacc hd]

/-- Witness for C7 (amended) at a concrete upstream failure. -/
theorem C7_error_detail_witness :
    (fastApiClientError wErr).1 = "bad file" ∧
    (fastApiClientError wErr).2 = some 422 ∧
    (aiReplyHandler "/api" wReplyReq wUserMember (some wProject) (some wChat)
      (fun _ _ => Except.error wErr)).2 = HResp.err 500 "Internal server error." := by
  refine ⟨C7_error_detail.1 wErr "bad file" rfl (by decide),
    C7_error_detail.2.1 wErr,
    C7_error_detail.2.2 "/api" wReplyReq wUserMember wProject wTeam wChat
      (fun _ _ => Except.error wErr) wErr (by decide) (by decide) (by decide) rfl rfl rfl⟩

/-! ## C8: chat resolution -/

theorem resolveChat_given (st : ChatState) (pid cid nid : String) (h : cid ≠ "") :
    resolveChat st pid (some cid) nid =
      (st.chats.find? (fun c => c.id == cid && c.project == pid), st) := by
  have hb : jsFalsyStr (some cid) = false := by
    simpa [jsFalsyStr] using h
  simp [resolveChat, hb]

theorem resolveChat_found (st : ChatState) (pid nid : String) (c : ChatRec)
    (h : st.chats.find? (fun c => c.project == pid) = some c) :
    resolveChat st pid none nid = (some c, st) := by
  simp [resolveChat, jsFalsyStr, h]

theorem resolveChat_create (st : ChatState) (pid nid : String)
    (h : st.chats.find? (fun c => c.project == pid) = none) :
    resolveChat st pid none nid =
      (some { id := nid, project := pid, title := "New chat", messages := [] },
       { chats := st.chats ++ [{ id := nid, project := pid, title := "New chat", messages := [] }],
         projectChats := st.projectChats ++ [nid] }) := by
  simp [resolveChat, jsFalsyStr, h]

theorem resolveChat_sequential (st : ChatState) (pid nid nid2 : String)
    (h : st.chats.find? (fun c => c.project == pid) = none) :
    resolveChat (resolveChat st pid none nid).2 pid none nid2 =
      (some { id := nid, project := pid, title := "New chat", messages := [] },
       (resolveChat st pid none nid).2) := by
  rw [resolveChat_create st pid nid h]
  refine resolveChat_found _ pid nid2 _ ?_
  rw [List.find?_append, h]
  simp [List.find?]

def exC8c1 : ChatRec := { id := "c1", project := "p", title := "t1", messages := [] }

def exC8c2 : ChatRec := { id := "c2", project := "p", title := "t2", messages := [] }

/-- C8 counterexample store: two chats for project `p`, registered in the
order `c1` then `c2` — so `c2` is the most recently associated one. -/
def exC8St : ChatState := { chats := [exC8c1, exC8c2], projectChats := ["c1", "c2"] }

/-- C8 counterexample: with no chat id supplied, resolution returns the
*first* chat in store order (`c1`), not the most recently associated chat
(`c2`). -/
theorem C8_counterexample :
    (resolveChat exC8St "p" none "n").1 = some exC8c1 ∧
    exC8St.projectChats.getLast? = some "c2" ∧
    exC8c1.id = "c1" ∧ exC8c2.id = "c2" ∧ exC8c2.project = "p" ∧
    ("c1" : String) ≠ "c2" := by
  refine ⟨rfl, rfl, rfl, rfl, rfl, by decide⟩

/-- C8 (amended): with a (non-empty) chat id the chat scoped to the project
is looked up and nothing is created; with no chat id the *first* existing
chat for the project in store order is returned (not necessarily the most
recently associated one) with no creation; only when none exists is a new
chat (title "New chat", no messages) created and registered on the
project, and a second sequential id-less call then finds that chat instead
of creating another. -/
theorem C8_chat_resolution :
    (∀ st pid cid nid, cid ≠ "" → resolveChat st pid (some cid) nid =
      (st.chats.find? (fun c => c.id == cid && c.project == pid), st)) ∧
    (∀ st pid nid c, st.chats.find? (fun c => c.project == pid) = some c →
      resolveChat st pid none nid = (some c, st)) ∧
    (∀ st pid nid, st.chats.find? (fun c => c.project == pid) = none →
      resolveChat st pid none nid =
        (some { id := nid, project := pid, title := "New chat", messages := [] },
         { chats := st.chats ++ [{ id := nid, project := pid, title := "New chat", messages := [] }],
           projectChats := st.projectChats ++ [nid] })) ∧
    (∀ st pid nid nid2, st.chats.find? (fun c => c.project == pid) = none →
      resolveChat (resolveChat st pid none nid).2 pid none nid2 =
        (some { id := nid, project := pid, title := "New chat", messages := [] },
         (resolveChat st pid none nid).2)) :=
  ⟨resolveChat_given, resolveChat_found, resolveChat_create, resolveChat_sequential⟩

/-- Witness for C8 (amended): creation on an empty store, and the second
sequential call reusing the created chat. -/
theorem C8_chat_resolution_witness :
    resolveChat { chats := [], projectChats := [] } "p" none "n" =
      (some { id := "n", project := "p", title := "New chat", messages := [] },
       { chats := [{ id := "n", project := "p", title := "New chat", messages := [] }],
         projectChats := ["n"] }) ∧
    resolveChat (resolveChat { chats := [], projectChats := [] } "p" none "n").2 "p" none "n2" =
      (some { id := "n", project := "p", title := "New chat", messages := [] },
       (resolveChat { chats := [], projectChats := [] } "p" none "n").2) ∧
    resolveChat wSt "p1" (some "c1") "n" =
      (wSt.chats.find? (fun c => c.id == "c1" && c.project == "p1"), wSt) := by
  refine ⟨C8_chat_resolution.2.2.1 { chats := [], projectChats := [] } "p" "n" rfl, ?_, ?_⟩
  · exact C8_chat_resolution.2.2.2 { chats := [], projectChats := [] } "p" "n" "n2" rfl
  · exact C8_chat_resolution.1 wSt "p1" "c1" "n" (by decide)

/-! ## C9: message senders -/

/-- C9 counterexample: the reply operation appends its bot message with
sender `"chatbot"`, not `"assistant"`. -/
theorem C9_counterexample :
    (aiReplyHandler "" wReplyReq wUserMember (some wProject) (some wChat)
        (fun _ _ => Except.ok (JsonV.str "ok"))).1 =
      some { wChat with messages := wChat.messages ++
        [{ sender := "chatbot", content := some "\"ok\"",
           selectedDatasets := [], tempFiles := [] }] } ∧
    ("chatbot" : String) ≠ "assistant" := by
  refine ⟨rfl, by decide⟩

/-- C9 (amended): messages appended by the submit operation carry sender
`"user"` (for every submission passing validation: text, files or
datasets), the reply operation appends its bot message with sender
`"chatbot"` (not `"assistant"`) with content the serialized analysis
result, and the recent-turns mapping sends sender `"user"` to role
`"user"` and every other sender to role `"assistant"`. -/
theorem C9_message_senders :
    (∀ req files ds u p team st st1 nid chat,
      jsFalsyStr req.projectId = false →
      (optTrim req.content ≠ "" ∨ files.filter isCsvUpload ≠ [] ∨
        parseSelectedDatasets ds ≠ []) →
      p.team = some team → accessCheck u team = none →
      resolveChat st (req.projectId.getD "") req.chatId nid = (some chat, st1) →
      chatHandler req files ds u (some p) st nid =
        (updateChat st1 chat.id { chat with messages := chat.messages ++
            [{ sender := "user", content := jsStrOrNull (optTrim req.content),
               selectedDatasets := parseSelectedDatasets ds,
               tempFiles := (files.filter isCsvUpload).map mkTempFile }] },
         HResp.okSubmit "User message saved." chat.id)) ∧
    (∀ fp req u p team chat dispatch analysis,
      jsFalsyStr req.projectId = false → jsFalsyStr req.chatId = false →
      optTrim req.content ≠ "" → p.team = some team → accessCheck u team = none →
      dispatch (analyzePathChat fp) (buildReplyForm p chat.messages (req.content.getD "")) =
        Except.ok analysis →
      aiReplyHandler fp req u (some p) (some chat) dispatch =
        (some { chat with messages := chat.messages ++
            [{ sender := "chatbot", content := some (jsonStringify analysis),
               selectedDatasets := [], tempFiles := [] }] },
         HResp.okAnalysis analysis)) ∧
    (∀ msgs t, t ∈ recentHistory msgs →
      ∃ m, m ∈ msgs ∧ t.content = m.content ∧
        (m.sender = "user" → t.role = "user") ∧
        (m.sender ≠ "user" → t.role = "assistant")) := by
  refine ⟨?_, ?_, ?_⟩
  · intro req files ds u p team st st1 nid chat hpid hval hteam hacc hresolve
    exact chatHandler_success req files ds u p team st st1 nid chat
      hpid hval hteam hacc hresolve
  · intro fp req u p team chat dispatch analysis hpid hcid hcontent hteam hacc hd
    exact aiReplyHandler_ok fp req u p team chat dispatch analysis
      hpid hcid hcontent hteam hacc hd
  · intro msgs t ht
    rcases List.mem_map.mp ht with ⟨m, hm, rfl⟩
    refine ⟨m, List.mem_of_mem_drop hm, rfl, ?_, ?_⟩
    · intro hs
      simp [hs]
    · intro hs
      simp [hs]

def exC9Msgs : List Msg :=
  [{ sender := "user", content := some "q", selectedDatasets := [], tempFiles := [] },
   { sender := "chatbot", content := some "r", selectedDatasets := [], tempFiles := [] }]

/-- Witness for C9 (amended): a dataset-only submit, a text submit, a
concrete reply run, and a non-user sender mapped to role "assistant". -/
theorem C9_message_senders_witness :
    chatHandler { chatId := some "c1", projectId := some "p1", content := none }
        [] (DsInput.arr [JsonV.str "d1"]) wUserMember (some wProject) wSt "n" =
      (updateChat wSt wChat.id { wChat with messages := wChat.messages ++
          [{ sender := "user", content := jsStrOrNull (optTrim none),
             selectedDatasets := parseSelectedDatasets (DsInput.arr [JsonV.str "d1"]),
             tempFiles := (([] : List IncomingFile).filter isCsvUpload).map mkTempFile }] },
       HResp.okSubmit "User message saved." wChat.id) ∧
    chatHandler wSubmitReq [] DsInput.undef wUserMember (some wProject) wSt "n" =
      (updateChat wSt wChat.id { wChat with messages := wChat.messages ++
          [{ sender := "user", content := jsStrOrNull (optTrim wSubmitReq.content),
             selectedDatasets := parseSelectedDatasets DsInput.undef,
             tempFiles := (([] : List IncomingFile).filter isCsvUpload).map mkTempFile }] },
       HResp.okSubmit "User message saved." wChat.id) ∧
    aiReplyHandler "" wReplyReq wUserMember (some wProject) (some wChat)
      (fun _ _ => Except.ok (JsonV.str "ok")) =
      (some { wChat with messages := wChat.messages ++
          [{ sender := "chatbot", content := some (jsonStringify (JsonV.str "ok")),
             selectedDatasets := [], tempFiles := [] }] },
       HResp.okAnalysis (JsonV.str "ok")) ∧
    (∃ m, m ∈ exC9Msgs ∧ (some "r" : Option String) = m.content ∧
      (m.sender = "user" → ("assistant" : String) = "user") ∧
      (m.sender ≠ "user" → ("assistant" : String) = "assistant")) := by
  refine ⟨?_, ?_, ?_, ?_⟩
  · exact C9_message_senders.1
      { chatId := some "c1", projectId := some "p1", content := none }
      [] (DsInput.arr [JsonV.str "d1"]) wUserMember wProject wTeam
      wSt wSt "n" wChat (by decide) (Or.inr (Or.inr (by simp [parseSelectedDatasets]))) rfl rfl rfl
  · exact C9_message_senders.1 wSubmitReq [] DsInput.undef wUserMember wProject wTeam
      wSt wSt "n" wChat (by decide) (Or.inl (by decide)) rfl rfl rfl
  · exact C9_message_senders.2.1 "" wReplyReq wUserMember wProject wTeam wChat
      (fun _ _ => Except.ok (JsonV.str "ok")) (JsonV.str "ok")
      (by decide) (by decide) (by decide) rfl rfl rfl
  · exact C9_message_senders.2.2 exC9Msgs { role := "assistant", content := some "r" }
      (by decide)

/-! ## C10: whitespace-only selectedDatasets -/

/-- C10: a whitespace-only `selectedDatasets` string normalizes to the
single-element list `[""]` (JSON parsing fails, there is no comma, and the
trimmed remainder is empty), so a submission carrying only it — no text,
no files — passes the empty-message validation and persists a user message
whose `selectedDatasets` is `[""]`. -/
theorem C10_whitespace_only (s : String) (h1 : s ≠ "") (h2 : s.toList.all isJsWs = true) :
    parseSelectedDatasets (DsInput.str s) = [JsonV.str ""] ∧
    (∀ (req : SubmitReq) u p team st st1 nid chat,
      req.content = none → jsFalsyStr req.projectId = false →
      p.team = some team → accessCheck u team = none →
      resolveChat st (req.projectId.getD "") req.chatId nid = (some chat, st1) →
      chatHandler req [] (DsInput.str s) u (some p) st nid =
        (updateChat st1 chat.id { chat with messages := chat.messages ++
            [{ sender := "user", content := none,
               selectedDatasets := [JsonV.str ""], tempFiles := [] }] },
         HResp.okSubmit "User message saved." chat.id)) := by
  have hp : parseSelectedDatasets (DsInput.str s) = [JsonV.str ""] := by
    have hne : (s == "") = false := by
      simpa [beq_eq_false_iff_ne] using h1
    simp only [parseSelectedDatasets, hne, Bool.false_eq_true, if_false,
      jsonParse_of_all_ws s h2, jsIncludes_comma_of_all_ws s h2, jsTrim_of_all_ws s h2]
  refine ⟨hp, ?_⟩
  intro req u p team st st1 nid chat hnone hpid hteam hacc hresolve
  have := chatHandler_success_datasets req [] (DsInput.str s) u p team st st1 nid chat
    hpid (by rw [hp]; simp) hteam hacc hresolve
  rw [this, hp, hnone]
  rfl

/-- Witness for C10 at the single-space string. -/
theorem C10_whitespace_only_witness :
    parseSelectedDatasets (DsInput.str " ") = [JsonV.str ""] ∧
    chatHandler { chatId := some "c1", projectId := some "p1", content := none }
        [] (DsInput.str " ") wUserMember (some wProject) wSt "n" =
      (updateChat wSt wChat.id { wChat with messages := wChat.messages ++
          [{ sender := "user", content := none,
             selectedDatasets := [JsonV.str ""], tempFiles := [] }] },
       HResp.okSubmit "User message saved." wChat.id) := by
  refine ⟨(C10_whitespace_only " " (by decide) (by decide)).1, ?_⟩
  exact (C10_whitespace_only " " (by decide) (by decide)).2
    { chatId := some "c1", projectId := some "p1", content := none }
    wUserMember wProject wTeam wSt wSt "n" wChat rfl (by decide) rfl rfl rfl

end Capstone
